import Mathlib

/-!
Shallow embedding of the pydantic-ai examples repository: a bank-support agent
(`src/bank-support/bank_support_agent.py`), a weather agent
(`src/weather-agent/weather_agent.py`) and a structured-output example
(`src/pydantic-model/main.py`).

The repository's own code (the fake database, the tool handlers, the dynamic
system-prompt generator, the declared result schemas, the retry counts) is
embedded directly from the source.  The orchestration machinery of the
pydantic-ai library (structured-output validation, the bounded validation-retry
loop) is not part of the repository's files; where a claim needs it, a
definition is modelled from the spec and says so in its doc comment.

Python `int` is embedded as `Int`; the `float` balances of the fake database,
all exact decimals, are embedded as `Rat`; exceptions become `Except`/tagged
outcome types; awaited I/O collaborators (the HTTP client) are embedded by
passing the response data the call would yield as an argument, paired with a
count of network requests actually performed.
-/

namespace Core

/-- A JSON-like primitive value occurring in a model's raw final-answer
payload. -/
inductive JsonVal where
  | str (s : String)
  | int (n : Int)
  | bool (b : Bool)
  | null
deriving DecidableEq, Repr

/-- The primitive field types the repository's result schemas declare. -/
inductive PrimType where
  | str
  | int
  | bool
deriving DecidableEq, Repr

/-- One declared field of a result schema: a name, a primitive type and
optional inclusive integer bounds (as in `Field(..., ge=0, le=10)`). -/
structure FieldSpec where
  name : String
  ty : PrimType
  lo : Option Int
  hi : Option Int
deriving DecidableEq, Repr

/-- Modelled from the spec: whether one payload value conforms to a declared
field type and its optional inclusive bounds (the Structured Output Validator
is pydantic/pydantic-ai library code, not among the repository's files). -/
def checkVal (ty : PrimType) (lo hi : Option Int) (v : JsonVal) : Bool :=
  match ty, v with
  | .str, .str _ => true
  | .bool, .bool _ => true
  | .int, .int n =>
      (match lo with | none => true | some b => decide (b ≤ n)) &&
      (match hi with | none => true | some b => decide (n ≤ b))
  | _, _ => false

/-- Modelled from the spec: one declared field's check against a payload — the
field must be present (first binding wins) and conform. -/
def fieldCheck (payload : List (String × JsonVal)) (f : FieldSpec) : Bool :=
  match payload.lookup f.name with
  | some v => checkVal f.ty f.lo f.hi v
  | none => false

/-- Modelled from the spec: the Structured Output Validator — every declared
field present with the declared type and within declared bounds; payload
entries whose names are not declared are never examined. -/
def validate (schema : List FieldSpec) (payload : List (String × JsonVal)) : Bool :=
  schema.all (fieldCheck payload)

/-- Outcome of one orchestrated run. -/
inductive RunOutcome (α : Type) where
  | done (value : α)
  | failed (message : String)
deriving DecidableEq, Repr

/-- Modelled from the spec: the final-answer validation/retry loop of the
Orchestrator and Retry Controller (library code, not among the repository's
files).  `answers k` is the candidate final answer the Model Client produces on
its `k`-th attempt; `budget` is the remaining retry budget, initialized to
`max_retries`; the second component of the result counts the final-answer
validation attempts made. -/
def validateLoop (answers : Nat → List (String × JsonVal)) (schema : List FieldSpec) :
    Nat → Nat → RunOutcome (List (String × JsonVal)) × Nat
  | budget, k =>
    if validate schema (answers k) then (.done (answers k), k + 1)
    else
      match budget with
      | 0 => (.failed "retry budget exhausted", k + 1)
      | b + 1 => validateLoop answers schema b (k + 1)

/-- Modelled from the spec: a run whose model only ever produces final answers,
started with the full retry budget. -/
def runValidation (schema : List FieldSpec) (maxRetries : Nat)
    (answers : Nat → List (String × JsonVal)) :
    RunOutcome (List (String × JsonVal)) × Nat :=
  validateLoop answers schema maxRetries 0

end Core

namespace BankSupport

open Core

/-- The fake database of `bank_support_agent.py`: a handle with no state of its
own (both of its methods are classmethods over literal tables). -/
structure DatabaseConn where
deriving DecidableEq, Repr

/-- `SupportDependencies`: the per-run dependency context of the support
agent. -/
structure SupportDependencies where
  customer_id : Int
  db : DatabaseConn
deriving DecidableEq, Repr

/-- The literal name table inside `DatabaseConn.customer_name`. -/
def customer_name_and_id : List (Int × String) :=
  [(1, "John"), (2, "Trump"), (3, "Praveen"), (4, "Lucky")]

/-- `DatabaseConn.customer_name`: returns the stored name for a known id and
raises `ValueError(f"Customer not found with the given id :- {id}")`
otherwise. -/
def DatabaseConn.customer_name (id : Int) : Except String String :=
  match customer_name_and_id.lookup id with
  | some n => .ok n
  | none => .error ("Customer not found with the given id :- " ++ toString id)

/-- The literal balance table inside `DatabaseConn.customer_balance`; the
source's float literals 100.0, 123.45, 342, 10 are exact decimals. -/
def account_balance : List (Int × Rat) :=
  [(1, 100.0), (2, 123.45), (3, 342), (4, 10)]

/-- `DatabaseConn.customer_balance`: returns the stored balance when the id is
in the table AND `include_pending` holds, and raises
`ValueError("Customer not found")` otherwise. -/
def DatabaseConn.customer_balance (id : Int) (include_pending : Bool) :
    Except String Rat :=
  match account_balance.lookup id, include_pending with
  | some b, true => .ok b
  | _, _ => .error "Customer not found"

/-- The `SupportResult` schema as declared in the source:
`support_advice: str`, `block_card: bool`, `risk: int` with `ge=0, le=10`. -/
def SupportResult.schema : List FieldSpec :=
  [⟨"support_advice", .str, none, none⟩,
   ⟨"block_card", .bool, none, none⟩,
   ⟨"risk", .int, some 0, some 10⟩]

/-- `retries=2` on the `support_agent` construction. -/
def support_agent_retries : Nat := 2

/-- The dynamic system-prompt generator `add_customer_name`: looks the display
name up by the context's `customer_id` and renders
`f"The customer's name is {customer_name!r}"` (the Python `!r` repr of these
names is the name in single quotes); the lookup's failure propagates. -/
def add_customer_name (ctx_deps : SupportDependencies) : Except String String :=
  match DatabaseConn.customer_name ctx_deps.customer_id with
  | .ok n => .ok ("The customer's name is '" ++ n ++ "'")
  | .error e => .error e

/-- Python's `f"${balance:.2f}"` on the (exact-decimal, nonnegative) balances
of the table: the dollar sign, the whole dollars, a dot and two digits of
cents. -/
def formatDollars (balance : Rat) : String :=
  let cents : Int := (balance * 100).floor
  let c := cents % 100
  "$" ++ toString (cents / 100) ++ "." ++
    (if c < 10 then "0" ++ toString c else toString c)

/-- One balance lookup performed against the fake database, as the tool handler
issues it: the keyword arguments `id=` and `include_pending=` of the call. -/
structure DbBalanceCall where
  id : Int
  include_pending : Bool
deriving DecidableEq, Repr

/-- The tool handler `customer_balance` of the support agent, instrumented with
the list of database balance lookups it performs.  Faithful to the source: it
calls `ctx.deps.db.customer_balance(id=ctx.deps.customer_id,
include_pending=True)` — the literal `True`, not the model-supplied
`include_pending` argument — and formats the result as dollars. -/
def customer_balance (ctx_deps : SupportDependencies) (include_pending : Bool) :
    Except String String × List DbBalanceCall :=
  let call : DbBalanceCall := ⟨ctx_deps.customer_id, true⟩
  match DatabaseConn.customer_balance ctx_deps.customer_id true with
  | .ok b => (.ok (formatDollars b), [call])
  | .error e => (.error e, [call])

/-- Invoking `DatabaseConn.customer_name` through a dependency context, returning
the outcome together with the context as it stands after the call (the method
reads the context and never writes it). -/
def customer_name_call (ctx_deps : SupportDependencies) :
    Except String String × SupportDependencies :=
  (DatabaseConn.customer_name ctx_deps.customer_id, ctx_deps)

/-- Invoking `DatabaseConn.customer_balance` through a dependency context,
returning the outcome together with the context as it stands after the call. -/
def customer_balance_call (ctx_deps : SupportDependencies) (include_pending : Bool) :
    Except String Rat × SupportDependencies :=
  (DatabaseConn.customer_balance ctx_deps.customer_id include_pending, ctx_deps)

/-- Modelled from the spec: the Orchestrator's Init state evaluates every
dynamic system-prompt generator before the first Model Client call, and a
generator's own failure is a fatal run error (the orchestration loop is library
code, not among the repository's files).  The Model Client is abstracted by the
candidate final answers it would produce; the second component counts Model
Client calls, which here coincide with validation attempts. -/
def supportRun (ctx_deps : SupportDependencies) (maxRetries : Nat)
    (answers : Nat → List (String × JsonVal)) :
    RunOutcome (List (String × JsonVal)) × Nat :=
  match add_customer_name ctx_deps with
  | .error e => (.failed e, 0)
  | .ok _ => runValidation SupportResult.schema maxRetries answers

end BankSupport

namespace PydanticModel

open Core

/-- The `MyModel` schema of `pydantic-model/main.py`: four string fields
`city`, `state`, `country`, `population`, no bounds. -/
def MyModel.schema : List FieldSpec :=
  [⟨"city", .str, none, none⟩,
   ⟨"state", .str, none, none⟩,
   ⟨"country", .str, none, none⟩,
   ⟨"population", .str, none, none⟩]

end PydanticModel

namespace WeatherAgent

/-- `WeatherAgentDep` of `weather_agent.py`, holding the two optional API keys
(the `client` handle is embedded by passing each handler the response data its
network call would yield). -/
structure WeatherAgentDep where
  weather_api_key : Option String
  geo_api_key : Option String
deriving DecidableEq, Repr

/-- `retries=2` on the `weather_agent` construction. -/
def weather_agent_retries : Nat := 2

/-- One entry of the geocoding API's JSON response, with its `lat` and `lon`
fields (coordinate representation left generic). -/
structure GeoEntry (α : Type) where
  lat : α
  lon : α
deriving DecidableEq, Repr

/-- The mapping `{"lat": ..., "lng": ...}` a successful `get_lat_lng` call
returns. -/
structure LatLng (α : Type) where
  lat : α
  lng : α
deriving DecidableEq, Repr

/-- Outcome of a tool handler: a value, a raised `ModelRetry` (the soft-retry
signal asking the model to reconsider), or a plain raised exception
(`ValueError`), which is fatal for the run. -/
inductive ToolOutcome (α : Type) where
  | ok (value : α)
  | modelRetry (message : String)
  | fatal (message : String)
deriving DecidableEq, Repr

/-- The tool handler `get_lat_lng`, given the geocoding response `response` its
network call would yield, paired with the number of network requests actually
performed.  Faithful to the source: with no geo API key it raises
`ValueError("Geo API key is required")` before any request; otherwise, on a
non-empty response it returns the first entry's coordinates, and on an empty
one it raises `ModelRetry("Could not find the location")`. -/
def get_lat_lng {α : Type} (ctx_deps : WeatherAgentDep)
    (response : List (GeoEntry α)) : ToolOutcome (LatLng α) × Nat :=
  match ctx_deps.geo_api_key with
  | none => (.fatal "Geo API key is required", 0)
  | some _ =>
    match response with
    | entry :: _ => (.ok ⟨entry.lat, entry.lon⟩, 1)
    | [] => (.modelRetry "Could not find the location", 1)

/-- The `data["data"]["values"]` object of the weather API response:
`temperatureApparent` embedded as the integer the `:0.0f` format would print,
and the raw `weatherCode`. -/
structure WeatherValues where
  temperatureApparent : Int
  weatherCode : Int
deriving DecidableEq, Repr

/-- The mapping `{"temperature": ..., "description": ...}` a successful
`get_weather` call returns. -/
structure WeatherReport where
  temperature : String
  description : String
deriving DecidableEq, Repr

/-- The literal `code_lookup` table of `get_weather`. -/
def code_lookup : List (Int × String) :=
  [(1000, "Clear, Sunny"),
   (1100, "Mostly Clear"),
   (1101, "Partly Cloudy"),
   (1102, "Mostly Cloudy"),
   (1001, "Cloudy"),
   (2000, "Fog"),
   (2100, "Light Fog"),
   (4000, "Drizzle"),
   (4001, "Rain"),
   (4200, "Light Rain"),
   (4201, "Heavy Rain"),
   (5000, "Snow"),
   (5001, "Flurries"),
   (5100, "Light Snow"),
   (5101, "Heavy Snow"),
   (6000, "Freezing Drizzle"),
   (6001, "Freezing Rain"),
   (6200, "Light Freezing Rain"),
   (6201, "Heavy Freezing Rain"),
   (7000, "Ice Pellets"),
   (7101, "Heavy Ice Pellets"),
   (7102, "Light Ice Pellets"),
   (8000, "Thunderstorm")]

/-- The tool handler `get_weather`, given the `values` its network call would
yield, paired with the number of network requests actually performed.  Faithful
to the source: with no weather API key it raises
`ValueError("Weather API key is required")` before any request; otherwise it
returns the formatted apparent temperature and
`code_lookup.get(values["weatherCode"], "Unknown")`. -/
def get_weather (ctx_deps : WeatherAgentDep) (lat lng : Rat)
    (values : WeatherValues) : ToolOutcome WeatherReport × Nat :=
  match ctx_deps.weather_api_key with
  | none => (.fatal "Weather API key is required", 0)
  | some _ =>
    (.ok ⟨toString values.temperatureApparent ++ "°C",
          (code_lookup.lookup values.weatherCode).getD "Unknown"⟩, 1)

end WeatherAgent

namespace Core

theorem fieldCheck_str (p : List (String × JsonVal)) (nm : String) :
    fieldCheck p ⟨nm, .str, none, none⟩ = true ↔ ∃ s, p.lookup nm = some (.str s) := by
  simp only [fieldCheck]
  cases h : p.lookup nm with
  | none => simp
  | some v => cases v <;> simp [checkVal]

theorem fieldCheck_bool (p : List (String × JsonVal)) (nm : String) :
    fieldCheck p ⟨nm, .bool, none, none⟩ = true ↔ ∃ b, p.lookup nm = some (.bool b) := by
  simp only [fieldCheck]
  cases h : p.lookup nm with
  | none => simp
  | some v => cases v <;> simp [checkVal]

theorem fieldCheck_int (p : List (String × JsonVal)) (nm : String) (lo hi : Int) :
    fieldCheck p ⟨nm, .int, some lo, some hi⟩ = true ↔
      ∃ n, p.lookup nm = some (.int n) ∧ lo ≤ n ∧ n ≤ hi := by
  simp only [fieldCheck]
  cases h : p.lookup nm with
  | none => simp
  | some v => cases v <;> simp [checkVal]

theorem lookup_append_singleton (p : List (String × JsonVal)) (e1 : String)
    (e2 : JsonVal) (k : String) (h : k ≠ e1) :
    (p ++ [(e1, e2)]).lookup k = p.lookup k := by
  have hb : (k == e1) = false := by simp [h]
  induction p with
  | nil => simp [List.lookup, hb]
  | cons a t ih =>
      obtain ⟨a1, a2⟩ := a
      simp only [List.cons_append, List.lookup]
      split <;> simp [ih]

theorem fieldCheck_append_extra (p : List (String × JsonVal)) (e1 : String)
    (e2 : JsonVal) (f : FieldSpec) (h : f.name ≠ e1) :
    fieldCheck (p ++ [(e1, e2)]) f = fieldCheck p f := by
  simp only [fieldCheck]
  rw [lookup_append_singleton p e1 e2 f.name h]

theorem validateLoop_never (answers : Nat → List (String × JsonVal))
    (schema : List FieldSpec) (h : ∀ k, validate schema (answers k) = false) :
    ∀ budget start, validateLoop answers schema budget start =
      (.failed "retry budget exhausted", start + budget + 1) := by
  intro budget
  induction budget with
  | zero => intro start; simp [validateLoop, h]
  | succ b ih => intro start; simp [validateLoop, h, ih]; omega

end Core

open Core BankSupport WeatherAgent PydanticModel

theorem floor_eq_int_floor (q : Rat) : q.floor = ⌊q⌋ :=
  (Rat.floor_def' q).trans Rat.floor_def.symm

/-- Claim C1: for every Agent configured with max_retries = n — the repository's
support agent and weather agent both set n = 2 — a run whose final answer never
validates makes at most n + 1 final-answer validation attempts before returning
Failed. -/
theorem C1_retry_bound (schema : List FieldSpec) (n : Nat)
    (answers : Nat → List (String × JsonVal))
    (h : ∀ k, validate schema (answers k) = false) :
    (runValidation schema n answers).2 ≤ n + 1 ∧
    (runValidation schema n answers).1 = .failed "retry budget exhausted" ∧
    support_agent_retries = 2 ∧ weather_agent_retries = 2 := by
  have hl := validateLoop_never answers schema h n 0
  unfold runValidation
  rw [hl]
  exact ⟨by omega, rfl, rfl, rfl⟩

theorem C1_retry_bound_witness :
    (runValidation SupportResult.schema 2 (fun _ => [])).2 ≤ 2 + 1 ∧
    (runValidation SupportResult.schema 2 (fun _ => [])).1 =
      .failed "retry budget exhausted" ∧
    support_agent_retries = 2 ∧ weather_agent_retries = 2 :=
  C1_retry_bound SupportResult.schema 2 (fun _ => []) (fun _ => rfl)

/-- Claim C2: for the repository's result schemas SupportResult and MyModel,
validation accepts a raw final-answer payload iff every declared field is
present with the declared primitive type and the bounded numeric field risk
lies in [0, 10] inclusive; payload entries with undeclared names are ignored,
never rejected. -/
theorem C2_validator_rules :
    (∀ p : List (String × JsonVal),
      validate SupportResult.schema p = true ↔
        ((∃ s, p.lookup "support_advice" = some (.str s)) ∧
         (∃ b, p.lookup "block_card" = some (.bool b)) ∧
         (∃ n, p.lookup "risk" = some (.int n) ∧ 0 ≤ n ∧ n ≤ 10))) ∧
    (∀ p : List (String × JsonVal),
      validate MyModel.schema p = true ↔
        ((∃ s, p.lookup "city" = some (.str s)) ∧
         (∃ s, p.lookup "state" = some (.str s)) ∧
         (∃ s, p.lookup "country" = some (.str s)) ∧
         (∃ s, p.lookup "population" = some (.str s)))) ∧
    (∀ (schema : List FieldSpec) (p : List (String × JsonVal)) (e1 : String)
        (e2 : JsonVal), (∀ f ∈ schema, f.name ≠ e1) →
      validate schema (p ++ [(e1, e2)]) = validate schema p) := by
  refine ⟨?_, ?_, ?_⟩
  · intro p
    simp [validate, SupportResult.schema, List.all_cons, List.all_nil,
      Bool.and_eq_true, fieldCheck_str, fieldCheck_bool, fieldCheck_int]
  · intro p
    simp [validate, MyModel.schema, List.all_cons, List.all_nil,
      Bool.and_eq_true, fieldCheck_str]
  · intro schema p e1 e2 h
    induction schema with
    | nil => rfl
    | cons f t ih =>
        simp only [validate, List.all_cons] at ih ⊢
        rw [fieldCheck_append_extra p e1 e2 f (h f (List.mem_cons_self f t)),
          ih (fun g hg => h g (List.mem_cons_of_mem f hg))]

/-- Claim C3 counterexample: the customer_balance tool does NOT pass the
model-supplied include_pending value to the database lookup — with the model
supplying include_pending = false for customer 1, the one lookup performed is
id = 1, include_pending = true. -/
theorem C3_arg_passing_cex :
    (customer_balance ⟨1, ⟨⟩⟩ false).2 =
      [{ id := 1, include_pending := true }] ∧
    (customer_balance ⟨1, ⟨⟩⟩ false).2 ≠
      [{ id := 1, include_pending := false }] := by
  constructor
  · rfl
  · decide

/-- Claim C3 amended: every invocation of the customer_balance tool performs
exactly one database balance lookup, whose id is exactly the dependency
context's customer_id and whose include_pending is the literal True from the
source, regardless of the include_pending value the model supplied. -/
theorem C3_arg_passing_amended (ctx_deps : SupportDependencies)
    (include_pending : Bool) :
    (customer_balance ctx_deps include_pending).2 =
      [{ id := ctx_deps.customer_id, include_pending := true }] := by
  unfold customer_balance
  cases DatabaseConn.customer_balance ctx_deps.customer_id true <;> rfl

/-- Claim C4: for every customer id absent from the backing name table, the
dynamic system-prompt generator add_customer_name (via
DatabaseConn.customer_name) fails with a fatal error whose diagnostic names the
missing identifier and the run makes zero model calls; for every id present in
the table it returns the stored display name. -/
theorem C4_missing_customer (id : Int) :
    (customer_name_and_id.lookup id = none →
      DatabaseConn.customer_name id =
        .error ("Customer not found with the given id :- " ++ toString id) ∧
      ∀ (db : DatabaseConn) (n : Nat) (answers : Nat → List (String × JsonVal)),
        supportRun ⟨id, db⟩ n answers =
          (.failed ("Customer not found with the given id :- " ++ toString id), 0)) ∧
    (∀ name, customer_name_and_id.lookup id = some name →
      DatabaseConn.customer_name id = .ok name ∧
      ∀ db : DatabaseConn, add_customer_name ⟨id, db⟩ =
        .ok ("The customer's name is '" ++ name ++ "'")) := by
  constructor
  · intro h
    have hn : DatabaseConn.customer_name id =
        .error ("Customer not found with the given id :- " ++ toString id) := by
      unfold DatabaseConn.customer_name
      rw [h]
    refine ⟨hn, ?_⟩
    intro db n answers
    unfold supportRun add_customer_name
    simp [hn]
  · intro name h
    have hn : DatabaseConn.customer_name id = .ok name := by
      unfold DatabaseConn.customer_name
      rw [h]
    refine ⟨hn, ?_⟩
    intro db
    unfold add_customer_name
    simp [hn]

/-- Claim C5: with a non-None geo API key, get_lat_lng raises the soft-retry
signal ModelRetry("Could not find the location") iff the geocoding response is
the empty list, and on every non-empty response it returns a mapping with the
first entry's latitude and longitude. -/
theorem C5_geocode_soft_retry {α : Type} (ctx_deps : WeatherAgentDep) (k : String)
    (h : ctx_deps.geo_api_key = some k) (response : List (GeoEntry α)) :
    ((get_lat_lng ctx_deps response).1 =
        .modelRetry "Could not find the location" ↔ response = []) ∧
    (∀ entry rest, response = entry :: rest →
      (get_lat_lng ctx_deps response).1 = .ok ⟨entry.lat, entry.lon⟩) := by
  unfold get_lat_lng
  rw [h]
  cases response with
  | nil => simp
  | cons e t => simp

theorem C5_geocode_soft_retry_witness :
    ((get_lat_lng ⟨some "w", some "g"⟩ ([] : List (GeoEntry Int))).1 =
        .modelRetry "Could not find the location" ↔
      ([] : List (GeoEntry Int)) = []) ∧
    (∀ entry rest, ([] : List (GeoEntry Int)) = entry :: rest →
      (get_lat_lng ⟨some "w", some "g"⟩ ([] : List (GeoEntry Int))).1 =
        .ok ⟨entry.lat, entry.lon⟩) :=
  C5_geocode_soft_retry ⟨some "w", some "g"⟩ "g" rfl ([] : List (GeoEntry Int))

/-- Claim C6: for every customer id present in the account table, the
customer_balance tool returns the stored balance serialized as a dollar string
with exactly two decimal places; for customer 1, whose stored balance is 100.0,
it returns "$100.00". -/
theorem C6_balance_format :
    (∀ (id : Int) (b : Rat) (db : DatabaseConn) (ip : Bool),
      account_balance.lookup id = some b →
      (customer_balance ⟨id, db⟩ ip).1 = .ok (formatDollars b)) ∧
    (∀ (db : DatabaseConn) (ip : Bool),
      (customer_balance ⟨1, db⟩ ip).1 = .ok "$100.00") := by
  have main : ∀ (id : Int) (b : Rat) (db : DatabaseConn) (ip : Bool),
      account_balance.lookup id = some b →
      (customer_balance ⟨id, db⟩ ip).1 = .ok (formatDollars b) := by
    intro id b db ip h
    unfold customer_balance DatabaseConn.customer_balance
    simp [h]
  have hfloor : ((100.0 : Rat) * 100).floor = (10000 : Int) := by
    rw [floor_eq_int_floor]
    norm_num
  have hfmt : formatDollars (100.0 : Rat) = "$100.00" := by
    simp only [formatDollars, hfloor]
    norm_num
    rfl
  refine ⟨main, ?_⟩
  intro db ip
  rw [main 1 (100.0 : Rat) db ip rfl, hfmt]

/-- Claim C7: the fake-database handlers are deterministic and safe to
re-invoke — for every dependency context and argument value, two sequential
calls of DatabaseConn.customer_name or DatabaseConn.customer_balance produce
the same outcome, and the dependency context is unchanged after each call. -/
theorem C7_handler_determinism (ctx_deps : SupportDependencies) (ip : Bool) :
    (customer_name_call ((customer_name_call ctx_deps).2)).1 =
      (customer_name_call ctx_deps).1 ∧
    (customer_name_call ctx_deps).2 = ctx_deps ∧
    (customer_name_call ((customer_name_call ctx_deps).2)).2 = ctx_deps ∧
    (customer_balance_call ((customer_balance_call ctx_deps ip).2) ip).1 =
      (customer_balance_call ctx_deps ip).1 ∧
    (customer_balance_call ctx_deps ip).2 = ctx_deps ∧
    (customer_balance_call ((customer_balance_call ctx_deps ip).2) ip).2 =
      ctx_deps :=
  ⟨rfl, rfl, rfl, rfl, rfl, rfl⟩

/-- Claim C8: DatabaseConn.customer_balance raises "Customer not found" for
every call with include_pending false — even when the id is in the account
table — and returns the stored balance exactly when the id is present and
include_pending is true. -/
theorem C8_include_pending_gate :
    (∀ id : Int, DatabaseConn.customer_balance id false =
      .error "Customer not found") ∧
    (∀ (id : Int) (ip : Bool) (b : Rat),
      DatabaseConn.customer_balance id ip = .ok b ↔
        account_balance.lookup id = some b ∧ ip = true) := by
  constructor
  · intro id
    unfold DatabaseConn.customer_balance
    cases account_balance.lookup id <;> rfl
  · intro id ip b
    unfold DatabaseConn.customer_balance
    cases h : account_balance.lookup id <;> cases ip <;> simp

/-- Claim C9: when the required API key in the dependency context is None, the
tool handlers get_lat_lng and get_weather each raise a fatal error — not a
soft-retry signal — stating that the key is required, and perform zero network
requests. -/
theorem C9_missing_api_key {α : Type} (ctx_deps : WeatherAgentDep)
    (response : List (GeoEntry α)) (lat lng : Rat) (values : WeatherValues) :
    (ctx_deps.geo_api_key = none →
      get_lat_lng ctx_deps response = (.fatal "Geo API key is required", 0)) ∧
    (ctx_deps.weather_api_key = none →
      get_weather ctx_deps lat lng values =
        (.fatal "Weather API key is required", 0)) := by
  constructor
  · intro h
    unfold get_lat_lng
    rw [h]
  · intro h
    unfold get_weather
    rw [h]

/-- Claim C10: the weather-code translation of get_weather is total — its
lookup table holds 23 codes, and whenever the weather API key is present the
handler returns a report rather than a failure, whose description is "Unknown"
for every weatherCode outside the table. -/
theorem C10_weather_code_total (ctx_deps : WeatherAgentDep) (k : String)
    (h : ctx_deps.weather_api_key = some k) (lat lng : Rat)
    (values : WeatherValues) :
    code_lookup.length = 23 ∧
    ∃ report : WeatherReport,
      (get_weather ctx_deps lat lng values).1 = .ok report ∧
      (code_lookup.lookup values.weatherCode = none →
        report.description = "Unknown") := by
  refine ⟨rfl, ⟨toString values.temperatureApparent ++ "°C",
    (code_lookup.lookup values.weatherCode).getD "Unknown"⟩, ?_, ?_⟩
  · unfold get_weather
    rw [h]
  · intro hc
    simp [hc]

theorem C10_weather_code_total_witness :
    code_lookup.length = 23 ∧
    ∃ report : WeatherReport,
      (get_weather ⟨some "w", some "g"⟩ 1 2 ⟨21, 1234⟩).1 = .ok report ∧
      (code_lookup.lookup (1234 : Int) = none → report.description = "Unknown") :=
  C10_weather_code_total ⟨some "w", some "g"⟩ "w" rfl 1 2 ⟨21, 1234⟩
